import Mathlib

/-!
# Navigate-SensorHub: verification of the specification against the source

Shallow embedding of the data-plane of the sensor-hub daemon
(`src/messages.rs`, `src/sensors.rs`, `src/sensors/lsm6dsl.rs`,
`src/sensors/lis3mdl.rs`, `src/sensors/mavlink.rs`, `src/scheduler.rs`,
`src/registry.rs`, `src/grpc_service.rs`, `src/main.rs`).

Conventions of the embedding:
* `f32`/`f64` arithmetic is modelled over `ℚ` with exact arithmetic; the one
  transcendental operation the code uses (`f32::powf`) is passed in as an
  uninterpreted function parameter `powf : ℚ → ℚ → ℚ`.
* Machine integers (`i16`, `u8`, `u64`, …) are modelled as `ℤ`/`ℕ`; the `i16`
  two's-complement decode from little-endian bytes is explicit.
* Ambient effects (clock samples, bus transactions, detection attempts) are
  passed as explicit parameters or finite traces of outcomes.
* Fallible Rust code returning `Result` is modelled with `Except`.
-/

namespace SensorHub

/-! ## messages.rs — Header and message model -/

/-- Structure `Header` from `src/messages.rs` (lines 4–28): metadata common to all
sensor messages. `t_utc_ns`/`t_mono_ns` are `u64` nanosecond counts,
`clock_err_ppb : i32`, `sigma_t_ns : u32`, `schema_v : u16`. -/
structure Header where
  device_id : String
  sensor_id : String
  frame_id : String
  seq : ℕ
  t_utc_ns : ℕ
  t_mono_ns : ℕ
  pps_locked : Bool
  ptp_locked : Bool
  clock_err_ppb : ℤ
  sigma_t_ns : ℕ
  schema_v : ℕ
  deriving Repr, DecidableEq

/-- Function `Header::new` from `src/messages.rs` (lines 32–57).  The two ambient clock
samples the Rust code takes are passed explicitly:

* `utcNow` models `SystemTime::now().duration_since(UNIX_EPOCH).as_nanos()`;
* `monoElapsed` models `t_mono_ns`: the code runs
  `let mono_start = std::time::Instant::now();
   let t_mono_ns = mono_start.elapsed().as_nanos() as u64;`
  so the stored value is the scheduling-dependent delay between creating
  `mono_start` and sampling `elapsed()` — NOT a reading of the monotonic
  clock.  `monoElapsed` is that delay.

The remaining fields are the constants written in the source. -/
def Header.new (utcNow monoElapsed : ℕ)
    (device_id sensor_id frame_id : String) (seq : ℕ) : Header :=
  { device_id := device_id
    sensor_id := sensor_id
    frame_id := frame_id
    seq := seq
    t_utc_ns := utcNow
    t_mono_ns := monoElapsed
    pps_locked := false
    ptp_locked := false
    clock_err_ppb := 0
    sigma_t_ns := 1000
    schema_v := 1 }

/-- Structure `ImuMessage` from `src/messages.rs` (lines 61–76); `ax..gz : f32`. -/
structure ImuMessage where
  h : Header
  ax : ℚ
  ay : ℚ
  az : ℚ
  gx : ℚ
  gy : ℚ
  gz : ℚ
  deriving Repr, DecidableEq

/-- Structure `MagnetometerMessage` from `src/messages.rs` (lines 79–88). -/
structure MagnetometerMessage where
  h : Header
  mx : ℚ
  my : ℚ
  mz : ℚ
  deriving Repr, DecidableEq

/-- Structure `BarometerMessage` from `src/messages.rs` (lines 91–100). -/
structure BarometerMessage where
  h : Header
  pressure : ℚ
  temperature : ℚ
  altitude : ℚ
  deriving Repr, DecidableEq

/-- Enum `SensorMessage` from `src/messages.rs` (lines 103–108). -/
inductive SensorMessage where
  | imu : ImuMessage → SensorMessage
  | magnetometer : MagnetometerMessage → SensorMessage
  | barometer : BarometerMessage → SensorMessage
  deriving Repr, DecidableEq

/-- Accessor `SensorMessage::header` from `src/messages.rs` (lines 112–118). -/
def SensorMessage.header : SensorMessage → Header
  | .imu m => m.h
  | .magnetometer m => m.h
  | .barometer m => m.h

/-- Accessor `SensorMessage::sensor_id` from `src/messages.rs` (lines 121–123). -/
def SensorMessage.sensorId (m : SensorMessage) : String :=
  m.header.sensor_id

/-! ## errors.rs — the error variants the embedded code uses -/

/-- Subset of `SensorError` from `src/errors.rs` used by the embedded code. -/
inductive SensorError where
  | WrongChipId (sensor : String) (expected actual : ℕ)
  | InitError (sensor reason : String)
  | ReadError (sensor reason : String)
  | BusNotFound (bus : String)
  | UnsupportedDriver (driver : String)
  | BusError (reason : String)
  deriving Repr, DecidableEq

/-- Subset of `RegistryError` from `src/errors.rs` used by `init_all`. -/
inductive RegistryError where
  | DriverCreationError (e : SensorError)
  | RegistrationError (e : SensorError)
  deriving Repr, DecidableEq

/-! ## sensors.rs — SensorDataFrame -/

/-- Structure `SensorDataFrame` from `src/sensors.rs` (lines 5–17).  All fields
optional; `f32` triples/quadruples become `ℚ` tuples. -/
structure SensorDataFrame where
  accel : Option (ℚ × ℚ × ℚ) := none
  gyro : Option (ℚ × ℚ × ℚ) := none
  mag : Option (ℚ × ℚ × ℚ) := none
  temp : Option ℚ := none
  pressure_static : Option ℚ := none
  pressure_pitot : Option ℚ := none
  quaternion : Option (ℚ × ℚ × ℚ × ℚ) := none
  angular_velocity_body : Option (ℚ × ℚ × ℚ) := none
  deriving Repr, DecidableEq

/-! ## bus/i2c.rs — bus model

An `I2CBus` is modelled by its observable behaviour: `read_bytes(addr, reg,
buf)` returns `buf.len()` bytes (or a transport error), `write_byte` returns
unit or a transport error.  Transport errors are carried as strings, matching
the `format!("{}", e)` interpolation the drivers apply. -/

structure I2CBus where
  readBytes : ℕ → ℕ → ℕ → Except String (List ℕ)
  writeByte : ℕ → ℕ → ℕ → Except String Unit

/-- Decode `i16::from_le_bytes([b0, b1])`: two's-complement decode of a
little-endian signed 16-bit integer. -/
def i16FromLeBytes (b0 b1 : ℕ) : ℤ :=
  let u : ℕ := b0 % 256 + 256 * (b1 % 256)
  if u < 32768 then (u : ℤ) else (u : ℤ) - 65536

/-! ## sensors/lsm6dsl.rs — LSM6DSL IMU driver -/

/-- Constant `ACCEL_SENSITIVITY_2G = 0.061 * 9.81 / 1000.0` (m/s² per LSB) from
`src/sensors/lsm6dsl.rs` line 14. -/
def ACCEL_SENSITIVITY_2G : ℚ := 61 / 1000 * (981 / 100) / 1000

/-- Constant `GYRO_SENSITIVITY_250DPS = 8.75 / 1000.0` from `src/sensors/lsm6dsl.rs`
line 15 — the source's own comment says *"dps per LSB"*. -/
def GYRO_SENSITIVITY_250DPS : ℚ := (875 / 100) / 1000

/-- Per-axis value the LSM6DSL driver stores into `frame.gyro`
(`src/sensors/lsm6dsl.rs` lines 103–107): `gyro_raw[i] as f32 *
GYRO_SENSITIVITY_250DPS`. -/
def lsm6dslGyroVal (raw : ℤ) : ℚ := (raw : ℚ) * GYRO_SENSITIVITY_250DPS

/-- Per-axis value the LSM6DSL driver stores into `frame.accel`
(`src/sensors/lsm6dsl.rs` lines 84–88). -/
def lsm6dslAccelVal (raw : ℤ) : ℚ := (raw : ℚ) * ACCEL_SENSITIVITY_2G

/-- Function `Lsm6dsl::init` from `src/sensors/lsm6dsl.rs` (lines 35–66): read
`WHO_AM_I`, require `0x6A`, then write the two configuration registers. -/
def Lsm6dsl.init (id : String) (address : ℕ) (bus : I2CBus) :
    Except SensorError Unit :=
  match bus.readBytes address 0x0F 1 with
  | .error e => .error (.BusError e)
  | .ok whoAmIBuf =>
    if whoAmIBuf.getD 0 0 ≠ 0x6A then
      .error (.WrongChipId id 0x6A (whoAmIBuf.getD 0 0))
    else
      match bus.writeByte address 0x10 0b01000000 with
      | .error e => .error (.InitError id ("Failed to configure accelerometer: " ++ e))
      | .ok _ =>
        match bus.writeByte address 0x11 0b01000000 with
        | .error e => .error (.InitError id ("Failed to configure gyroscope: " ++ e))
        | .ok _ => .ok ()

/-- Function `Lsm6dsl::read` from `src/sensors/lsm6dsl.rs` (lines 68–121): block
reads at `OUTX_L_XL` (6 bytes), `OUTX_L_G` (6 bytes), `OUT_TEMP_L` (2
bytes); little-endian `i16` assembly; scale to the frame. -/
def Lsm6dsl.read (id : String) (address : ℕ) (bus : I2CBus) :
    Except SensorError SensorDataFrame :=
  match bus.readBytes address 0x28 6 with
  | .error e => .error (.ReadError id ("Failed to read accelerometer: " ++ e))
  | .ok accelBuf =>
    let accelRaw := (i16FromLeBytes (accelBuf.getD 0 0) (accelBuf.getD 1 0),
                     i16FromLeBytes (accelBuf.getD 2 0) (accelBuf.getD 3 0),
                     i16FromLeBytes (accelBuf.getD 4 0) (accelBuf.getD 5 0))
    match bus.readBytes address 0x22 6 with
    | .error e => .error (.ReadError id ("Failed to read gyroscope: " ++ e))
    | .ok gyroBuf =>
      let gyroRaw := (i16FromLeBytes (gyroBuf.getD 0 0) (gyroBuf.getD 1 0),
                      i16FromLeBytes (gyroBuf.getD 2 0) (gyroBuf.getD 3 0),
                      i16FromLeBytes (gyroBuf.getD 4 0) (gyroBuf.getD 5 0))
      match bus.readBytes address 0x20 2 with
      | .error e => .error (.ReadError id ("Failed to read temperature: " ++ e))
      | .ok tempBuf =>
        let tempRaw := i16FromLeBytes (tempBuf.getD 0 0) (tempBuf.getD 1 0)
        .ok { accel := some (lsm6dslAccelVal accelRaw.1,
                             lsm6dslAccelVal accelRaw.2.1,
                             lsm6dslAccelVal accelRaw.2.2)
              gyro := some (lsm6dslGyroVal gyroRaw.1,
                            lsm6dslGyroVal gyroRaw.2.1,
                            lsm6dslGyroVal gyroRaw.2.2)
              temp := some ((tempRaw : ℚ) / 256 + 25) }

/-! ## sensors/lis3mdl.rs — LIS3MDL magnetometer driver -/

/-- Constant `SENSITIVITY_4GAUSS = 0.00014` from `src/sensors/lis3mdl.rs` line 15 —
the source's own comment says *"Tesla per LSB"* (numerically the constant is
the gauss-per-LSB sensitivity `1/6842 ≈ 0.000146`). -/
def SENSITIVITY_4GAUSS : ℚ := 14 / 100000

/-- Per-axis value the LIS3MDL driver stores into `frame.mag`
(`src/sensors/lis3mdl.rs` lines 100–104): `mag_raw[i] as f32 *
SENSITIVITY_4GAUSS`. -/
def lis3mdlMagVal (raw : ℤ) : ℚ := (raw : ℚ) * SENSITIVITY_4GAUSS

/-- Function `Lis3mdl::read` from `src/sensors/lis3mdl.rs` (lines 82–107): one
6-byte block read at `OUT_X_L`, little-endian `i16` assembly, scale. -/
def Lis3mdl.read (id : String) (address : ℕ) (bus : I2CBus) :
    Except SensorError SensorDataFrame :=
  match bus.readBytes address 0x28 6 with
  | .error e => .error (.ReadError id ("Failed to read magnetometer data: " ++ e))
  | .ok magBuf =>
    let magRaw := (i16FromLeBytes (magBuf.getD 0 0) (magBuf.getD 1 0),
                   i16FromLeBytes (magBuf.getD 2 0) (magBuf.getD 3 0),
                   i16FromLeBytes (magBuf.getD 4 0) (magBuf.getD 5 0))
    .ok { mag := some (lis3mdlMagVal magRaw.1,
                       lis3mdlMagVal magRaw.2.1,
                       lis3mdlMagVal magRaw.2.2) }

/-! ## sensors/mavlink.rs — MAVLink message data and conversions -/

/-- Structure `SCALED_IMU_DATA` (MAVLink crate): `i16` acceleration in
milli-g and `i16` angular rate in milli-rad/s. -/
structure SCALED_IMU_DATA where
  time_boot_ms : ℕ
  xacc : ℤ
  yacc : ℤ
  zacc : ℤ
  xgyro : ℤ
  ygyro : ℤ
  zgyro : ℤ
  xmag : ℤ
  ymag : ℤ
  zmag : ℤ
  deriving Repr, DecidableEq

/-- Structure `HIGHRES_IMU_DATA` (MAVLink crate): `f32` fields already in SI. -/
structure HIGHRES_IMU_DATA where
  xacc : ℚ
  yacc : ℚ
  zacc : ℚ
  xgyro : ℚ
  ygyro : ℚ
  zgyro : ℚ
  temperature : ℚ
  deriving Repr, DecidableEq

/-- Structure `SCALED_PRESSURE_DATA` (MAVLink crate): `press_abs` and
`press_diff` in hPa (`f32`), `temperature` in centi-°C (`i16`). -/
structure SCALED_PRESSURE_DATA where
  press_abs : ℚ
  press_diff : ℚ
  temperature : ℤ
  deriving Repr, DecidableEq

/-- Structure `ATTITUDE_QUATERNION_DATA` (MAVLink crate). -/
structure ATTITUDE_QUATERNION_DATA where
  q1 : ℚ
  q2 : ℚ
  q3 : ℚ
  q4 : ℚ
  rollspeed : ℚ
  pitchspeed : ℚ
  yawspeed : ℚ
  deriving Repr, DecidableEq

/-- Enum `MavMessage` restricted to the variants `start_message_loop`
matches on (`src/sensors/mavlink.rs` lines 82–114); `other` stands for every
other decoded MAVLink message (the `_ => None` arm). -/
inductive MavMessage where
  | SCALED_IMU : SCALED_IMU_DATA → MavMessage
  | SCALED_IMU2 : SCALED_IMU_DATA → MavMessage
  | SCALED_IMU3 : SCALED_IMU_DATA → MavMessage
  | HIGHRES_IMU : HIGHRES_IMU_DATA → MavMessage
  | SCALED_PRESSURE : SCALED_PRESSURE_DATA → MavMessage
  | ATTITUDE_QUATERNION : ATTITUDE_QUATERNION_DATA → MavMessage
  | other
  deriving Repr, DecidableEq

/-- Enum `MavlinkSensorType` from `src/sensors/mavlink.rs` (lines 18–27). -/
inductive MavlinkSensorType where
  | Imu (inst : ℕ)
  | HighresImu
  | Barometer
  | Attitude
  deriving Repr, DecidableEq

/-- Function `convert_scaled_imu_to_frame` from `src/sensors/mavlink.rs`
(lines 147–162): milli-g → m/s² via `/1000 * 9.81`, milli-rad/s → rad/s via
`/1000`. -/
def convert_scaled_imu_to_frame (imu : SCALED_IMU_DATA) : SensorDataFrame :=
  { accel := some ((imu.xacc : ℚ) / 1000 * (981 / 100),
                   (imu.yacc : ℚ) / 1000 * (981 / 100),
                   (imu.zacc : ℚ) / 1000 * (981 / 100))
    gyro := some ((imu.xgyro : ℚ) / 1000,
                  (imu.ygyro : ℚ) / 1000,
                  (imu.zgyro : ℚ) / 1000) }

/-- Function `convert_scaled_imu2_to_frame` from `src/sensors/mavlink.rs`
(lines 165–179); same arithmetic as `convert_scaled_imu_to_frame`. -/
def convert_scaled_imu2_to_frame (imu : SCALED_IMU_DATA) : SensorDataFrame :=
  { accel := some ((imu.xacc : ℚ) / 1000 * (981 / 100),
                   (imu.yacc : ℚ) / 1000 * (981 / 100),
                   (imu.zacc : ℚ) / 1000 * (981 / 100))
    gyro := some ((imu.xgyro : ℚ) / 1000,
                  (imu.ygyro : ℚ) / 1000,
                  (imu.zgyro : ℚ) / 1000) }

/-- Function `convert_scaled_imu3_to_frame` from `src/sensors/mavlink.rs`
(lines 182–196); same arithmetic as `convert_scaled_imu_to_frame`. -/
def convert_scaled_imu3_to_frame (imu : SCALED_IMU_DATA) : SensorDataFrame :=
  { accel := some ((imu.xacc : ℚ) / 1000 * (981 / 100),
                   (imu.yacc : ℚ) / 1000 * (981 / 100),
                   (imu.zacc : ℚ) / 1000 * (981 / 100))
    gyro := some ((imu.xgyro : ℚ) / 1000,
                  (imu.ygyro : ℚ) / 1000,
                  (imu.zgyro : ℚ) / 1000) }

/-- Function `convert_highres_imu_to_frame` from `src/sensors/mavlink.rs`
(lines 199–206): fields already in SI units. -/
def convert_highres_imu_to_frame (imu : HIGHRES_IMU_DATA) : SensorDataFrame :=
  { accel := some (imu.xacc, imu.yacc, imu.zacc)
    gyro := some (imu.xgyro, imu.ygyro, imu.zgyro)
    temp := some imu.temperature }

/-- Function `convert_pressure_to_frame` from `src/sensors/mavlink.rs`
(lines 209–220): hPa → Pa via `* 100`, `press_diff = 0` maps to `None`,
centi-°C → °C. -/
def convert_pressure_to_frame (p : SCALED_PRESSURE_DATA) : SensorDataFrame :=
  { pressure_static := some (p.press_abs * 100)
    pressure_pitot := if p.press_diff ≠ 0 then some (p.press_diff * 100) else none
    temp := some ((p.temperature : ℚ) / 100) }

/-- Function `convert_attitude_to_frame` from `src/sensors/mavlink.rs`
(lines 223–229). -/
def convert_attitude_to_frame (att : ATTITUDE_QUATERNION_DATA) : SensorDataFrame :=
  { quaternion := some (att.q1, att.q2, att.q3, att.q4)
    angular_velocity_body := some (att.rollspeed, att.pitchspeed, att.yawspeed) }

/-- Match arms of `start_message_loop` from `src/sensors/mavlink.rs`
(lines 82–114): which (sensor type, message) pairs produce a frame. -/
def mavlinkFrameOpt : MavlinkSensorType → MavMessage → Option SensorDataFrame
  | .Imu 0, .SCALED_IMU imu => some (convert_scaled_imu_to_frame imu)
  | .Imu 1, .SCALED_IMU2 imu => some (convert_scaled_imu2_to_frame imu)
  | .Imu 2, .SCALED_IMU3 imu => some (convert_scaled_imu3_to_frame imu)
  | .HighresImu, .HIGHRES_IMU imu => some (convert_highres_imu_to_frame imu)
  | .Barometer, .SCALED_PRESSURE p => some (convert_pressure_to_frame p)
  | .Attitude, .ATTITUDE_QUATERNION att => some (convert_attitude_to_frame att)
  | _, _ => none

/-- Selection `frame.pressure_static.or(frame.pressure_pitot)` used by both
publication paths (`src/sensors/mavlink.rs` line 258, `src/scheduler.rs`
line 103). -/
def selectedPressure (frame : SensorDataFrame) : Option ℚ :=
  match frame.pressure_static with
  | some p => some p
  | none => frame.pressure_pitot

/-- Function `frame_to_grpc_messages` from `src/sensors/mavlink.rs`
(lines 232–285): IMU message iff both accel and gyro are present; barometer
message iff a pressure is present, with ISA altitude
`44330 * (1 - (pressure / 101325).powf(0.1903))` when `pressure > 0`, else
`0`; `powf` is the uninterpreted `f32::powf`. -/
def frame_to_grpc_messages (powf : ℚ → ℚ → ℚ)
    (frame : SensorDataFrame) (header : Header) : List SensorMessage :=
  let imuMsgs : List SensorMessage :=
    match frame.accel, frame.gyro with
    | some accel, some gyro =>
      [.imu { h := header
              ax := accel.1, ay := accel.2.1, az := accel.2.2
              gx := gyro.1, gy := gyro.2.1, gz := gyro.2.2 }]
    | _, _ => []
  let baroMsgs : List SensorMessage :=
    match selectedPressure frame with
    | some pressure =>
      let temperature := frame.temp.getD 20
      let altitude : ℚ :=
        if pressure > 0 then 44330 * (1 - powf (pressure / 101325) (1903 / 10000))
        else 0
      [.barometer { h := header
                    pressure := pressure
                    temperature := temperature
                    altitude := altitude }]
    | none => []
  imuMsgs ++ baroMsgs

/-! ## scheduler.rs — per-read message building and sequence numbering -/

/-- Message-building block of the polled-sensor loop in
`spawn_sensor_tasks`, `src/scheduler.rs` lines 80–121: IMU message iff both
accel and gyro present, magnetometer message iff mag present, barometer
message iff a pressure is present (ISA altitude as in the MAVLink path). -/
def schedulerFrameMessages (powf : ℚ → ℚ → ℚ)
    (frame : SensorDataFrame) (header : Header) : List SensorMessage :=
  let imuMsgs : List SensorMessage :=
    match frame.accel, frame.gyro with
    | some accel, some gyro =>
      [.imu { h := header
              ax := accel.1, ay := accel.2.1, az := accel.2.2
              gx := gyro.1, gy := gyro.2.1, gz := gyro.2.2 }]
    | _, _ => []
  let magMsgs : List SensorMessage :=
    match frame.mag with
    | some mag =>
      [.magnetometer { h := header, mx := mag.1, my := mag.2.1, mz := mag.2.2 }]
    | none => []
  let baroMsgs : List SensorMessage :=
    match selectedPressure frame with
    | some pressure =>
      let temperature := frame.temp.getD 20
      let altitude : ℚ :=
        if pressure > 0 then 44330 * (1 - powf (pressure / 101325) (1903 / 10000))
        else 0
      [.barometer { h := header
                    pressure := pressure
                    temperature := temperature
                    altitude := altitude }]
    | none => []
  imuMsgs ++ magMsgs ++ baroMsgs

/-- Sequence numbers published by one polled-sensor task
(`src/scheduler.rs` lines 48–137): `sequence_counter` starts at `0`, is
incremented only on `Ok` reads, and the incremented value is stamped into
the header; `Err` reads only log.  Input: the trace of read outcomes. -/
def schedulerPublishedSeqs :
    List (Except SensorError SensorDataFrame) → ℕ → List ℕ
  | [], _ => []
  | .ok _ :: rest, c => (c + 1) :: schedulerPublishedSeqs rest (c + 1)
  | .error _ :: rest, c => schedulerPublishedSeqs rest c

/-- Sequence numbers published by one MAVLink sensor's message loop
(`src/sensors/mavlink.rs` lines 80–139): the counter behind
`sequence_counter` starts at `0` and is incremented exactly when the
received message matches this sensor's type. -/
def mavlinkPublishedSeqs (st : MavlinkSensorType) :
    List MavMessage → ℕ → List ℕ
  | [], _ => []
  | m :: rest, c =>
    match mavlinkFrameOpt st m with
    | some _ => (c + 1) :: mavlinkPublishedSeqs st rest (c + 1)
    | none => mavlinkPublishedSeqs st rest c

/-- Count of successful reads in a trace. -/
def okCount (rs : List (Except SensorError SensorDataFrame)) : ℕ :=
  (rs.filter (fun r => match r with | .ok _ => true | .error _ => false)).length

/-- Count of messages matching a MAVLink sensor's type in a trace. -/
def matchCount (st : MavlinkSensorType) (ms : List MavMessage) : ℕ :=
  (ms.filter (fun m => (mavlinkFrameOpt st m).isSome)).length

/-! ## Specification-side definitions used for comparison -/

/-- Specification formula for ISA altitude (spec §3 invariants and §8
property 4): `44330·(1 − (P/101325)^0.1903)` when `P > 0`, else `0`.
Written from the spec's words, to be compared with the two code paths;
`powf` is the same uninterpreted power function. -/
def specIsaAltitude (powf : ℚ → ℚ → ℚ) (p : ℚ) : ℚ :=
  if p > 0 then 44330 * (1 - powf (p / 101325) (1903 / 10000)) else 0

/-- Altitudes of the barometer messages in a published message list. -/
def baroAltitudes (msgs : List SensorMessage) : List ℚ :=
  msgs.filterMap fun m =>
    match m with
    | .barometer b => some b.altitude
    | _ => none

/-! ## Sequence-numbering lemmas (C3) -/

/-- Helper: the polled-sensor task publishes the consecutive numbers
`c+1, c+2, …` — one per successful read, none per failed read. -/
theorem schedulerPublishedSeqs_eq_range'
    (rs : List (Except SensorError SensorDataFrame)) :
    ∀ c : ℕ, schedulerPublishedSeqs rs c = List.range' (c + 1) (okCount rs) := by
  induction rs with
  | nil => intro c; rfl
  | cons r rest ih =>
    intro c
    cases r with
    | ok f =>
      show (c + 1) :: schedulerPublishedSeqs rest (c + 1) = _
      rw [ih (c + 1)]
      have hcount : okCount (Except.ok f :: rest) = okCount rest + 1 := by
        simp [okCount, List.filter]
      rw [hcount, List.range'_succ]
    | error e =>
      show schedulerPublishedSeqs rest c = _
      rw [ih c]
      have hcount : okCount (Except.error e :: rest) = okCount rest := by
        simp [okCount, List.filter]
      rw [hcount]

/-- Helper: the MAVLink message loop publishes the consecutive numbers
`c+1, c+2, …` — one per message matching the sensor's type. -/
theorem mavlinkPublishedSeqs_eq_range'
    (st : MavlinkSensorType) (ms : List MavMessage) :
    ∀ c : ℕ, mavlinkPublishedSeqs st ms c = List.range' (c + 1) (matchCount st ms) := by
  induction ms with
  | nil => intro c; rfl
  | cons m rest ih =>
    intro c
    cases hm : mavlinkFrameOpt st m with
    | some f =>
      show (match mavlinkFrameOpt st m with
            | some _ => (c + 1) :: mavlinkPublishedSeqs st rest (c + 1)
            | none => mavlinkPublishedSeqs st rest c) = _
      rw [hm, ih (c + 1)]
      have hcount : matchCount st (m :: rest) = matchCount st rest + 1 := by
        simp [matchCount, List.filter, hm]
      rw [hcount, List.range'_succ]
    | none =>
      show (match mavlinkFrameOpt st m with
            | some _ => (c + 1) :: mavlinkPublishedSeqs st rest (c + 1)
            | none => mavlinkPublishedSeqs st rest c) = _
      rw [hm, ih c]
      have hcount : matchCount st (m :: rest) = matchCount st rest := by
        simp [matchCount, List.filter, hm]
      rw [hcount]

/-- Claim C3: for every sensor the published `seq` values are exactly
`1, 2, 3, …` — on the polled path one per successful read (failed reads
consume no sequence number), on the MAVLink push path one per matching
message — hence gap-free when every read succeeds and strictly increasing
in general. -/
theorem publishedSeqs_consecutive_and_increasing
    (rs : List (Except SensorError SensorDataFrame))
    (st : MavlinkSensorType) (ms : List MavMessage) :
    schedulerPublishedSeqs rs 0 = List.range' 1 (okCount rs) ∧
    List.Chain' (fun a b => a < b) (schedulerPublishedSeqs rs 0) ∧
    mavlinkPublishedSeqs st ms 0 = List.range' 1 (matchCount st ms) ∧
    List.Chain' (fun a b => a < b) (mavlinkPublishedSeqs st ms 0) := by
  refine ⟨schedulerPublishedSeqs_eq_range' rs 0, ?_,
          mavlinkPublishedSeqs_eq_range' st ms 0, ?_⟩
  · rw [schedulerPublishedSeqs_eq_range' rs 0]
    exact (List.pairwise_lt_range' ..).chain'
  · rw [mavlinkPublishedSeqs_eq_range' st ms 0]
    exact (List.pairwise_lt_range' ..).chain'

/-! ## Altitude derivation (C4) -/

/-- Claim C4: whenever a frame has a pressure field populated, both the
polled-scheduler path and the MAVLink push path emit exactly one barometer
message, and its altitude is the spec's ISA formula
`44330·(1 − (P/101325)^0.1903)` for `P > 0`, else `0`, where `P` is the
selected pressure (static, else pitot). -/
theorem baro_altitude_matches_spec (powf : ℚ → ℚ → ℚ)
    (frame : SensorDataFrame) (hdr : Header) (p : ℚ)
    (hp : selectedPressure frame = some p) :
    baroAltitudes (schedulerFrameMessages powf frame hdr) = [specIsaAltitude powf p] ∧
    baroAltitudes (frame_to_grpc_messages powf frame hdr) = [specIsaAltitude powf p] := by
  constructor
  · simp only [schedulerFrameMessages, hp, baroAltitudes, specIsaAltitude]
    cases frame.accel <;> cases frame.gyro <;> cases frame.mag <;>
      simp [List.filterMap]
  · simp only [frame_to_grpc_messages, hp, baroAltitudes, specIsaAltitude]
    cases frame.accel <;> cases frame.gyro <;>
      simp [List.filterMap]

/-- Witness for C4 at the concrete frame `{pressure_static = 90000 Pa}`
(spec scenario 3) with the constant-zero power function. -/
theorem baro_altitude_matches_spec_witness :
    baroAltitudes (schedulerFrameMessages (fun _ _ => 0)
        { pressure_static := some 90000 }
        (Header.new 0 0 "navigate_hub" "fc_baro0" "sensor_frame" 1)) =
      [specIsaAltitude (fun _ _ => 0) 90000] ∧
    baroAltitudes (frame_to_grpc_messages (fun _ _ => 0)
        { pressure_static := some 90000 }
        (Header.new 0 0 "navigate_hub" "fc_baro0" "sensor_frame" 1)) =
      [specIsaAltitude (fun _ _ => 0) 90000] :=
  baro_altitude_matches_spec (fun _ _ => 0) { pressure_static := some 90000 }
    (Header.new 0 0 "navigate_hub" "fc_baro0" "sensor_frame" 1) 90000 rfl

/-! ## Gyroscope and magnetometer units (C1, C6) -/

/-- Claim C1 (code bug in `src/sensors/lsm6dsl.rs`): for the raw gyro count
1000 the LSM6DSL driver stores `1000 · 8.75/1000 = 8.75` — a °/s (dps)
value, per the source's own `GYRO_SENSITIVITY_250DPS` comment — into the
`rad/s`-documented gyro field; the rad/s value of that sample is
`8.75 · π/180 ≈ 0.1527`, so the published value is not the raw count
converted to rad/s.  The MAVLink `SCALED_IMU` path is correct: a
milli-rad/s count of 1000 is published as exactly 1 rad/s. -/
theorem lsm6dsl_gyro_dps_not_rad_per_s :
    lsm6dslGyroVal 1000 = 35 / 4 ∧
    (convert_scaled_imu_to_frame
        { time_boot_ms := 0, xacc := 0, yacc := 0, zacc := 0,
          xgyro := 1000, ygyro := 1000, zgyro := 1000,
          xmag := 0, ymag := 0, zmag := 0 }).gyro = some (1, 1, 1) ∧
    ((lsm6dslGyroVal 1000 : ℚ) : ℝ) ≠
      ((lsm6dslGyroVal 1000 : ℚ) : ℝ) * Real.pi / 180 := by
  have hq : lsm6dslGyroVal 1000 = 35 / 4 := by
    norm_num [lsm6dslGyroVal, GYRO_SENSITIVITY_250DPS]
  refine ⟨hq, ?_, ?_⟩
  · norm_num [convert_scaled_imu_to_frame]
  · rw [hq]
    push_cast
    intro h
    have hpi : Real.pi = 180 := by linarith
    have := Real.pi_lt_d2
    linarith

/-- Claim C6 (code bug in `src/sensors/lis3mdl.rs`): for the raw count 6842
(one gauss at the ±4 gauss full scale, whose sensitivity is 6842 LSB/gauss,
i.e. `100/6842 µT` per LSB) the driver returns `6842 · 0.00014 = 0.95788`,
not the µT value `100`; nor is it the µT value its own comment ("Tesla per
LSB") would imply, `6842 · 0.00014 · 10⁶`.  The published magnetometer
values are therefore not in µT. -/
theorem lis3mdl_mag_not_microtesla :
    lis3mdlMagVal 6842 = 23947 / 25000 ∧
    lis3mdlMagVal 6842 ≠ 6842 * (100 / 6842) ∧
    lis3mdlMagVal 6842 ≠ 6842 * (14 / 100000) * 1000000 := by
  refine ⟨?_, ?_, ?_⟩ <;> norm_num [lis3mdlMagVal, SENSITIVITY_4GAUSS]

/-! ## registry.rs — local-sensor initialisation and auto-detect backoff -/

/-- Structure: one entry of `sensors.toml`
(`src/config/sensor_config.rs`). -/
structure SensorCfgEntry where
  id : String
  driver : String
  bus : String
  address : ℕ
  deriving Repr, DecidableEq

/-- Local-sensor loop of `init_all` from `src/registry.rs` (lines 220–243):
for each configured local sensor, the create → bus-lookup → `init` pipeline
runs; any failure is propagated out of `init_all` with `?` (the pipeline for
one sensor, whose three failure sites wrap into `DriverCreationError` /
`RegistrationError`, is abstracted as `initSensor`).  On success the sensor
is appended; the result is the list of initialised sensor ids. -/
def initLocalSensors (initSensor : SensorCfgEntry → Except RegistryError Unit) :
    List SensorCfgEntry → Except RegistryError (List String)
  | [] => .ok []
  | s :: rest =>
    match initSensor s with
    | .error e => .error e
    | .ok _ =>
      match initLocalSensors initSensor rest with
      | .error e => .error e
      | .ok ids => .ok (s.id :: ids)

/-- Filter applied by `init_all` (`src/registry.rs` lines 209–213): only
sensors whose driver name does not start with `mavlink_` are initialised
locally. -/
def initAllLocal (initSensor : SensorCfgEntry → Except RegistryError Unit)
    (cfg : List SensorCfgEntry) : Except RegistryError (List String) :=
  initLocalSensors initSensor
    (cfg.filter (fun s => !(s.driver.startsWith "mavlink_")))

/-- Enum of process outcomes used to model `main`. -/
inductive ProcessOutcome where
  | aborted
  | running
  deriving Repr, DecidableEq

/-- Model of `main`'s use of `init_all` (`src/main.rs` line 41):
`.expect("Initialization failed")` panics on `Err`, aborting the process. -/
def mainAfterInit (r : Except RegistryError (List String)) : ProcessOutcome :=
  match r with
  | .error _ => .aborted
  | .ok _ => .running

/-- Fake bus of spec scenario 2: every register, in particular `WHO_AM_I`,
reads back `0x55`; writes succeed. -/
def fakeBusWrongId : I2CBus :=
  { readBytes := fun _ _ len => .ok (List.replicate len 0x55)
    writeByte := fun _ _ _ => .ok () }

/-- Configuration entry of spec scenario 2:
`{id: imu0, driver: lsm6dsl, bus: i2c0, address: 0x6A}`. -/
def imu0Cfg : SensorCfgEntry :=
  { id := "imu0", driver := "lsm6dsl", bus := "i2c0", address := 0x6A }

/-- Second configured sensor whose pipeline succeeds. -/
def mag0Cfg : SensorCfgEntry :=
  { id := "mag0", driver := "lis3mdl", bus := "i2c0", address := 0x1C }

/-- Per-sensor pipeline of scenario 2: the `lsm6dsl` driver's real `init`
runs against `fakeBusWrongId` (its failure wrapped in `RegistrationError`,
as in `src/registry.rs` lines 236–239); every other sensor initialises
fine. -/
def scenario2Init (s : SensorCfgEntry) : Except RegistryError Unit :=
  if s.driver = "lsm6dsl" then
    match Lsm6dsl.init s.id s.address fakeBusWrongId with
    | .error e => .error (.RegistrationError e)
    | .ok _ => .ok ()
  else .ok ()

/-- Counterexample to claim C2: with `imu0` reading back chip id `0x55`,
`init_all`'s local loop returns an error — it does not return successfully
with the remaining sensors — and `main` aborts. -/
theorem initAll_aborts_on_wrong_chip_id :
    initAllLocal scenario2Init [imu0Cfg, mag0Cfg] =
      .error (.RegistrationError (.WrongChipId "imu0" 0x6A 0x55)) ∧
    initAllLocal scenario2Init [imu0Cfg, mag0Cfg] ≠ .ok ["mag0"] ∧
    mainAfterInit (initAllLocal scenario2Init [imu0Cfg, mag0Cfg]) = .aborted := by
  have h1 : initAllLocal scenario2Init [imu0Cfg, mag0Cfg] =
      .error (.RegistrationError (.WrongChipId "imu0" 0x6A 0x55)) := rfl
  refine ⟨h1, ?_, ?_⟩
  · rw [h1]; simp
  · rw [h1]; rfl

/-- Claim C2 (corrected): if the create/bus/`init` pipeline of any
configured local sensor fails, `init_all` propagates the error with `?` —
returning `Err` instead of the remaining sensors — and `main`'s
`.expect("Initialization failed")` aborts the process. -/
theorem initAll_error_on_any_init_failure
    (initSensor : SensorCfgEntry → Except RegistryError Unit)
    (cfg : List SensorCfgEntry)
    (h : ∃ s ∈ cfg, ∃ e, initSensor s = .error e) :
    (∃ e, initLocalSensors initSensor cfg = .error e) ∧
    mainAfterInit (initLocalSensors initSensor cfg) = .aborted := by
  have herr : ∃ e, initLocalSensors initSensor cfg = .error e := by
    induction cfg with
    | nil => simp at h
    | cons s rest ih =>
      cases hs : initSensor s with
      | error e => exact ⟨e, by simp [initLocalSensors, hs]⟩
      | ok _ =>
        obtain ⟨s', hs', e', he'⟩ := h
        rcases List.mem_cons.mp hs' with rfl | hmem
        · rw [hs] at he'; exact absurd he' (by simp)
        · obtain ⟨e, he⟩ := ih ⟨s', hmem, e', he'⟩
          exact ⟨e, by simp [initLocalSensors, hs, he]⟩
  obtain ⟨e, he⟩ := herr
  exact ⟨⟨e, he⟩, by rw [he]; rfl⟩

/-- Witness for the corrected C2 at spec scenario 2's configuration. -/
theorem initAll_error_on_any_init_failure_witness :
    (∃ e, initLocalSensors scenario2Init [imu0Cfg, mag0Cfg] = .error e) ∧
    mainAfterInit (initLocalSensors scenario2Init [imu0Cfg, mag0Cfg]) = .aborted :=
  initAll_error_on_any_init_failure scenario2Init [imu0Cfg, mag0Cfg]
    ⟨imu0Cfg, by simp, RegistryError.RegistrationError
      (SensorError.WrongChipId "imu0" 0x6A 0x55), rfl⟩

/-- Auto-detect retry loop of `init_all` from `src/registry.rs`
(lines 153–175): `backoff_ms` starts at 100; each failed
`detect_flight_controller` attempt sleeps `backoff_ms` ms and then doubles
it, capped at `MAX_BACKOFF_MS = 2000`; the first success breaks the loop.
Input: the finite trace of attempt outcomes (`true` = flight controller
detected) and the current backoff; output: the sleep durations in ms. -/
def detectBackoffSleeps : List Bool → ℕ → List ℕ
  | [], _ => []
  | true :: _, _ => []
  | false :: rest, backoff =>
    backoff :: detectBackoffSleeps rest (min (backoff * 2) 2000)

/-- Helper: doubling-and-capping commutes with the closed form
`min (b·2^i) 2000`. -/
theorem min_double_cap_pow (b i : ℕ) :
    min (min (b * 2) 2000 * 2 ^ i) 2000 = min (b * 2 ^ (i + 1)) 2000 := by
  rcases le_or_lt (b * 2) 2000 with hb | hb
  · rw [min_eq_left hb, pow_succ]
    ring_nf
  · rw [min_eq_right hb.le]
    have h1 : (2000 : ℕ) ≤ 2000 * 2 ^ i :=
      Nat.le_mul_of_pos_right _ (Nat.pos_pow_of_pos i (by norm_num))
    have h2 : (2000 : ℕ) ≤ b * 2 ^ (i + 1) := by
      calc (2000 : ℕ) ≤ b * 2 := hb.le
        _ ≤ b * 2 * 2 ^ i := Nat.le_mul_of_pos_right _ (Nat.pos_pow_of_pos i (by norm_num))
        _ = b * 2 ^ (i + 1) := by rw [pow_succ]; ring
    rw [min_eq_right h1, min_eq_right h2]

/-- Helper: closed form of the backoff sleeps before the first successful
detection, for any starting backoff below the cap. -/
theorem detectBackoffSleeps_closed_form (l : List Bool) :
    ∀ (n b : ℕ), b ≤ 2000 →
      detectBackoffSleeps (List.replicate n false ++ true :: l) b =
        (List.range n).map (fun i => min (b * 2 ^ i) 2000) := by
  intro n
  induction n with
  | zero => intro b _; rfl
  | succ m ih =>
    intro b hb
    show b :: detectBackoffSleeps (List.replicate m false ++ true :: l)
        (min (b * 2) 2000) = _
    rw [ih (min (b * 2) 2000) (min_le_right _ _),
        List.range_succ_eq_map, List.map_cons, List.map_map]
    refine List.cons_eq_cons.mpr ⟨?_, ?_⟩
    · rw [pow_zero, mul_one, min_eq_left hb]
    · apply List.map_congr_left
      intro i _
      simp only [Function.comp_apply]
      simpa using min_double_cap_pow b i

/-- Claim C9: while auto-detection fails, the registry sleeps
`min(100·2^i, 2000)` ms before retry `i+1` — i.e. 100, 200, 400, 800, 1600
and then 2000 ms repeatedly — and stops retrying at the first successful
detection. -/
theorem detect_backoff_sequence (n : ℕ) (l rest : List Bool) (b : ℕ) :
    detectBackoffSleeps (List.replicate n false ++ true :: l) 100 =
      (List.range n).map (fun i => min (100 * 2 ^ i) 2000) ∧
    detectBackoffSleeps (true :: rest) b = [] ∧
    detectBackoffSleeps (List.replicate 7 false ++ [true]) 100 =
      [100, 200, 400, 800, 1600, 2000, 2000] := by
  refine ⟨detectBackoffSleeps_closed_form l n 100 (by norm_num), rfl, ?_⟩
  decide

/-! ## main.rs — exit codes (C7) -/

/-- Exit path of `main` from `src/main.rs` (lines 58–66): a failure of
`Server::serve` (bind failure or terminating error) is only logged
(`if let Err(e) = … { error!(…) }`); `main` then returns `()` normally, and
a Rust `main` returning `()` exits the process with code 0. -/
def mainExitCode (serveResult : Except String Unit) : ℕ :=
  match serveResult with
  | .error _ => 0
  | .ok _ => 0

/-- Counterexample to claim C7: when the RPC server fails (for example the
bind fails), the process still exits with code 0, not a non-zero code. -/
theorem mainExitCode_zero_on_server_error :
    mainExitCode (.error "transport error: failed to bind") = 0 := by
  rfl

/-- Claim C7 (corrected): the process exits with code 0 on graceful exit
and also with code 0 when the RPC server fails to bind or terminates with
an error — the server error is logged but never changes the exit status. -/
theorem mainExitCode_always_zero (serveResult : Except String Unit) :
    mainExitCode serveResult = 0 := by
  cases serveResult <;> rfl

/-! ## grpc_service.rs — publication hub (C8)

The four `tokio::sync::broadcast` senders are modelled by their observable
state: the number of live receivers and the messages enqueued so far.
`send` fails (and the message is dropped) exactly when there is no
receiver; `publish` ignores both send results.  Bounded-buffer lag
behaviour is irrelevant to the claims here and is not modelled. -/

/-- Protobuf `Header` produced by `convert_header`
(`src/grpc_service.rs` lines 259–273); `schema_v` widens `u16 → u32`. -/
structure ProtoHeader where
  device_id : String
  sensor_id : String
  frame_id : String
  seq : ℕ
  t_utc_ns : ℕ
  t_mono_ns : ℕ
  pps_locked : Bool
  ptp_locked : Bool
  clock_err_ppb : ℤ
  sigma_t_ns : ℕ
  schema_v : ℕ
  deriving Repr, DecidableEq

/-- Function `convert_header` from `src/grpc_service.rs` (lines 259–273). -/
def convert_header (h : Header) : ProtoHeader :=
  { device_id := h.device_id
    sensor_id := h.sensor_id
    frame_id := h.frame_id
    seq := h.seq
    t_utc_ns := h.t_utc_ns
    t_mono_ns := h.t_mono_ns
    pps_locked := h.pps_locked
    ptp_locked := h.ptp_locked
    clock_err_ppb := h.clock_err_ppb
    sigma_t_ns := h.sigma_t_ns
    schema_v := h.schema_v }

/-- Protobuf `ImuData` built in `publish` (`src/grpc_service.rs` lines 84–92). -/
structure ImuData where
  header : Option ProtoHeader
  ax : ℚ
  ay : ℚ
  az : ℚ
  gx : ℚ
  gy : ℚ
  gz : ℚ
  deriving Repr, DecidableEq

/-- Protobuf `MagnetometerData` built in `publish`
(`src/grpc_service.rs` lines 111–116). -/
structure MagnetometerData where
  header : Option ProtoHeader
  mx : ℚ
  my : ℚ
  mz : ℚ
  deriving Repr, DecidableEq

/-- Protobuf `BarometerData` built in `publish`
(`src/grpc_service.rs` lines 133–138). -/
structure BarometerData where
  header : Option ProtoHeader
  pressure : ℚ
  temperature : ℚ
  altitude : ℚ
  deriving Repr, DecidableEq

/-- Protobuf `SensorData` oneof for the unified stream
(`sensorhub::sensor_data::Data`). -/
inductive SensorData where
  | imu : ImuData → SensorData
  | magnetometer : MagnetometerData → SensorData
  | barometer : BarometerData → SensorData
  deriving Repr, DecidableEq

/-- Conversion of an internal `ImuMessage` to the protobuf `ImuData`
payload (`src/grpc_service.rs` lines 84–92). -/
def imuDataOf (m : ImuMessage) : ImuData :=
  { header := some (convert_header m.h)
    ax := m.ax, ay := m.ay, az := m.az
    gx := m.gx, gy := m.gy, gz := m.gz }

/-- Conversion of an internal `MagnetometerMessage` to `MagnetometerData`
(`src/grpc_service.rs` lines 111–116). -/
def magDataOf (m : MagnetometerMessage) : MagnetometerData :=
  { header := some (convert_header m.h), mx := m.mx, my := m.my, mz := m.mz }

/-- Conversion of an internal `BarometerMessage` to `BarometerData`
(`src/grpc_service.rs` lines 133–138). -/
def baroDataOf (m : BarometerMessage) : BarometerData :=
  { header := some (convert_header m.h)
    pressure := m.pressure, temperature := m.temperature, altitude := m.altitude }

/-- Model of a `tokio::sync::broadcast` sender: live receiver count and
messages enqueued so far. -/
structure BroadcastChannel (α : Type) where
  receiver_count : ℕ
  queue : List α
  deriving Repr, DecidableEq

/-- Behaviour of `broadcast::Sender::send`: with no receiver it returns
`Err` and drops the message, otherwise it enqueues the message. -/
def BroadcastChannel.send {α : Type} (ch : BroadcastChannel α) (x : α) :
    Except Unit Unit × BroadcastChannel α :=
  if ch.receiver_count = 0 then (.error (), ch)
  else (.ok (), { ch with queue := ch.queue ++ [x] })

/-- Structure `SensorStats` from `src/grpc_service.rs` (lines 38–46). -/
structure SensorStats where
  is_active : Bool
  is_healthy : Bool
  frequency_hz : ℕ
  messages_sent : ℕ
  last_message_time_ns : ℕ
  error_message : Option String
  deriving Repr, DecidableEq

/-- Instance `Default for SensorStats` from `src/grpc_service.rs`
(lines 48–59). -/
def SensorStats.default : SensorStats :=
  { is_active := false
    is_healthy := true
    frequency_hz := 0
    messages_sent := 0
    last_message_time_ns := 0
    error_message := none }

/-- State of `SensorHubService` (`src/grpc_service.rs` lines 27–36): the
four broadcast senders and the stats map (modelled as an association
list). -/
structure HubState where
  imu_tx : BroadcastChannel ImuData
  mag_tx : BroadcastChannel MagnetometerData
  baro_tx : BroadcastChannel BarometerData
  all_tx : BroadcastChannel SensorData
  sensor_stats : List (String × SensorStats)
  deriving Repr, DecidableEq

/-- Function `update_sensor_stats` from `src/grpc_service.rs`
(lines 158–168): `entry(id).or_default()` then set `is_active`, add
`message_count` to `messages_sent` and refresh `last_message_time_ns` with
the current wall clock (`now`, passed explicitly). -/
def updateSensorStats (now : ℕ) (stats : List (String × SensorStats))
    (sensor_id : String) (message_count : ℕ) : List (String × SensorStats) :=
  let bump : SensorStats → SensorStats := fun e =>
    { e with is_active := true
             messages_sent := e.messages_sent + message_count
             last_message_time_ns := now }
  if stats.any (fun p => p.1 = sensor_id) then
    stats.map (fun p => if p.1 = sensor_id then (p.1, bump p.2) else p)
  else
    stats ++ [(sensor_id, bump SensorStats.default)]

/-- Function `SensorHubService::publish` from `src/grpc_service.rs`
(lines 79–156): convert the header, send the typed payload to its
type-specific channel and, wrapped in `SensorData`, to the unified channel
(both send results ignored — "No active subscribers - this is fine"),
update the sensor's stats, return `Ok(())`. -/
def publish (now : ℕ) (st : HubState) (message : SensorMessage) :
    Except String Unit × HubState :=
  match message with
  | .imu imu =>
    let imu_data := imuDataOf imu
    let imuSend := st.imu_tx.send imu_data
    let allSend := st.all_tx.send (.imu imu_data)
    (.ok (), { st with imu_tx := imuSend.2
                       all_tx := allSend.2
                       sensor_stats :=
                         updateSensorStats now st.sensor_stats imu.h.sensor_id 1 })
  | .magnetometer mag =>
    let mag_data := magDataOf mag
    let magSend := st.mag_tx.send mag_data
    let allSend := st.all_tx.send (.magnetometer mag_data)
    (.ok (), { st with mag_tx := magSend.2
                       all_tx := allSend.2
                       sensor_stats :=
                         updateSensorStats now st.sensor_stats mag.h.sensor_id 1 })
  | .barometer baro =>
    let baro_data := baroDataOf baro
    let baroSend := st.baro_tx.send baro_data
    let allSend := st.all_tx.send (.barometer baro_data)
    (.ok (), { st with baro_tx := baroSend.2
                       all_tx := allSend.2
                       sensor_stats :=
                         updateSensorStats now st.sensor_stats baro.h.sensor_id 1 })

/-- Claim C8: `publish` always returns `Ok` — receivers or not — and its
whole effect is: the typed payload goes to the message's type-specific
channel, the wrapped payload goes to the unified channel, the other two
channels are untouched, and the sender's stats entry is updated
(`is_active`, `messages_sent`, `last_message_time_ns`). -/
theorem publish_ok_routes_both_and_updates_stats (now : ℕ) (st : HubState) :
    (∀ msg : SensorMessage,
      (publish now st msg).1 = .ok () ∧
      (publish now st msg).2.sensor_stats =
        updateSensorStats now st.sensor_stats msg.sensorId 1) ∧
    (∀ m : ImuMessage,
      (publish now st (.imu m)).2.imu_tx = (st.imu_tx.send (imuDataOf m)).2 ∧
      (publish now st (.imu m)).2.all_tx = (st.all_tx.send (.imu (imuDataOf m))).2 ∧
      (publish now st (.imu m)).2.mag_tx = st.mag_tx ∧
      (publish now st (.imu m)).2.baro_tx = st.baro_tx) ∧
    (∀ m : MagnetometerMessage,
      (publish now st (.magnetometer m)).2.mag_tx = (st.mag_tx.send (magDataOf m)).2 ∧
      (publish now st (.magnetometer m)).2.all_tx =
        (st.all_tx.send (.magnetometer (magDataOf m))).2 ∧
      (publish now st (.magnetometer m)).2.imu_tx = st.imu_tx ∧
      (publish now st (.magnetometer m)).2.baro_tx = st.baro_tx) ∧
    (∀ m : BarometerMessage,
      (publish now st (.barometer m)).2.baro_tx = (st.baro_tx.send (baroDataOf m)).2 ∧
      (publish now st (.barometer m)).2.all_tx =
        (st.all_tx.send (.barometer (baroDataOf m))).2 ∧
      (publish now st (.barometer m)).2.imu_tx = st.imu_tx ∧
      (publish now st (.barometer m)).2.mag_tx = st.mag_tx) := by
  refine ⟨fun msg => ?_, fun m => ⟨rfl, rfl, rfl, rfl⟩,
          fun m => ⟨rfl, rfl, rfl, rfl⟩, fun m => ⟨rfl, rfl, rfl, rfl⟩⟩
  cases msg <;> exact ⟨rfl, rfl⟩

/-! ## Claim theorems for the header (C10, C5) -/

/-- Claim C10: every header built by `Header::new` carries the constants
`pps_locked = false`, `ptp_locked = false`, `clock_err_ppb = 0`,
`sigma_t_ns = 1000` and `schema_v = 1`, for every clock sample, identifier
and sequence number: the synchronisation flags never report a lock. -/
theorem headerNew_constant_sync_fields
    (utcNow monoElapsed : ℕ) (dev sid fid : String) (seq : ℕ) :
    (Header.new utcNow monoElapsed dev sid fid seq).pps_locked = false ∧
    (Header.new utcNow monoElapsed dev sid fid seq).ptp_locked = false ∧
    (Header.new utcNow monoElapsed dev sid fid seq).clock_err_ppb = 0 ∧
    (Header.new utcNow monoElapsed dev sid fid seq).sigma_t_ns = 1000 ∧
    (Header.new utcNow monoElapsed dev sid fid seq).schema_v = 1 := by
  exact ⟨rfl, rfl, rfl, rfl, rfl⟩

/-- Claim C5 (code bug): `Header::new` stores into `t_mono_ns` the elapsed time of
an `Instant` created in the same call (`Instant::now().elapsed()`), i.e. the
tiny scheduling-dependent sampling delay, not a monotonic-clock reading.
Two successive calls of the same sensor's stream in which the first sampling
delay is 200 ns and the second 100 ns — while both wall clock and monotonic
clock advance — produce a *decreasing* `t_mono_ns`. -/
theorem headerNew_t_mono_ns_can_decrease :
    (Header.new 1000000 200 "navigate_hub" "imu0" "sensor_frame" 1).t_mono_ns = 200 ∧
    (Header.new 2000000 100 "navigate_hub" "imu0" "sensor_frame" 2).t_mono_ns = 100 ∧
    ¬ ((Header.new 1000000 200 "navigate_hub" "imu0" "sensor_frame" 1).t_mono_ns ≤
       (Header.new 2000000 100 "navigate_hub" "imu0" "sensor_frame" 2).t_mono_ns) := by
  refine ⟨rfl, rfl, ?_⟩
  decide

end SensorHub
